import Mathlib

/-!
Verification of the `AlgorithmVisualizer` step-player component
(`src/pages/components/algoVisualizer.tsx`).

The component owns a playback state: an integer cursor `currentStepIndex`
into a caller-supplied list of steps, and a boolean `isPlaying` flag.
The handlers `nextStep`, `prevStep`, `restart` and the play/pause toggle
mutate this state; a `useEffect` interval invokes `nextStep` every 1000 ms
while `isPlaying` is true.  JavaScript number arithmetic on
`steps.length - 1` is embedded as `Int` arithmetic (so that
`steps.length - 1` is `-1` for an empty list, as in the source), while the
cursor itself is a `Nat` (it is only ever 0, incremented, or decremented
when positive).

String constants are transcribed from the source verbatim, except that the
line breaks and indentation inside the TSX template literals are normalized
to single spaces (the claims never depend on intra-string whitespace).
-/

namespace AlgoVisualizer

/-- Playback state of the component: the two `useState` hooks
`currentStepIndex` (initially 0) and `isPlaying` (initially false). -/
structure PlaybackState where
  currentStepIndex : Nat
  isPlaying : Bool
deriving DecidableEq, Repr

/-- The initial state: `useState(0)` and `useState(false)`. -/
def initialState : PlaybackState := { currentStepIndex := 0, isPlaying := false }

/-- `nextStep` handler: `if (currentStepIndex < steps.length - 1)
setCurrentStepIndex(currentStepIndex + 1) else setIsPlaying(false)`.
The comparison is JavaScript number arithmetic, embedded over `Int`. -/
def nextStep (len : Nat) (s : PlaybackState) : PlaybackState :=
  if (s.currentStepIndex : Int) < (len : Int) - 1 then
    { s with currentStepIndex := s.currentStepIndex + 1 }
  else
    { s with isPlaying := false }

/-- `prevStep` handler: `if (currentStepIndex > 0)
setCurrentStepIndex(currentStepIndex - 1)`. -/
def prevStep (s : PlaybackState) : PlaybackState :=
  if s.currentStepIndex > 0 then
    { s with currentStepIndex := s.currentStepIndex - 1 }
  else
    s

/-- `restart` handler: `setCurrentStepIndex(0); setIsPlaying(false)`. -/
def restart (s : PlaybackState) : PlaybackState :=
  { s with currentStepIndex := 0, isPlaying := false }

/-- Play/Pause button handler: `setIsPlaying(!isPlaying)`. -/
def togglePlay (s : PlaybackState) : PlaybackState :=
  { s with isPlaying := !s.isPlaying }

/-- One firing of the autoplay interval from the `useEffect`: the interval
exists (and invokes `nextStep`) only while `isPlaying` is true; when
`isPlaying` is false no interval is armed and the state is untouched. -/
def tick (len : Nat) (s : PlaybackState) : PlaybackState :=
  if s.isPlaying then nextStep len s else s

/-- `n` successive firings of the autoplay interval. -/
def ticks (len : Nat) : Nat → PlaybackState → PlaybackState
  | 0, s => s
  | n + 1, s => ticks len n (tick len s)

/-- The metadata record stored per algorithm name in the `algorithmInfo`
table. -/
structure AlgorithmInfo where
  description : String
  timeComplexity : String
  spaceComplexity : String
deriving DecidableEq, Repr

/-- The static `algorithmInfo : Record<string, ...>` table; a JavaScript
object lookup by key either hits one of the nine entries or yields
`undefined`, embedded as `Option`. -/
def algorithmInfo (name : String) : Option AlgorithmInfo :=
  match name with
  | "Linear Search" => some
      { description := "Linear Search scans each element of the array one by one until the target value is found. It works for both sorted and unsorted arrays."
        timeComplexity := "0(n)"
        spaceComplexity := "0(1)" }
  | "Binary Search" => some
      { description := "Binary Search works by repeatedly dividing a sorted array in half and comparing the middle element with the target value. If the target is smaller, the left half is considered; if larger, the right half is considered."
        timeComplexity := "0(log n)"
        spaceComplexity := "0(1)" }
  | "Depth-First Search" => some
      { description := "Depth-First Search (DFS) explores as far as possible along a branch before backtracking. It\x27s commonly used for tree and graph traversals."
        timeComplexity := "0(V + E) (V: vertices, E: edges)"
        spaceComplexity := "0(V) for recursive DFS due to the call stack" }
  | "Breadth-First Search" => some
      { description := "Breadth-First Search (BFS) explores all the neighbor nodes at the present depth before moving on to nodes at the next depth level. It\x27s often used for shortest path problems in unweighted graphs."
        timeComplexity := "0(V + E) (V: vertices, E: edges)"
        spaceComplexity := "0(V) for storing nodes in the queue" }
  | "Bubble Sort" => some
      { description := "Bubble Sort compares adjacent elements in an array and swaps them if they are in the wrong order. It repeats this process until the array is sorted."
        timeComplexity := "0(n^2)"
        spaceComplexity := "0(1)" }
  | "Selection Sort" => some
      { description := "Selection Sort repeatedly finds the minimum element from the unsorted part of the array and swaps it with the first unsorted element, moving the boundary of the sorted part."
        timeComplexity := "0(n^2)"
        spaceComplexity := "0(1)" }
  | "Insertion Sort" => some
      { description := "Insertion Sort builds the sorted array one element at a time by picking elements and inserting them into their correct position in the already sorted part."
        timeComplexity := "0(n^2)"
        spaceComplexity := "0(1)" }
  | "Merge Sort" => some
      { description := "Merge Sort divides the array into two halves, recursively sorts each half, and then merges the two halves back together in sorted order."
        timeComplexity := "0(n log n)"
        spaceComplexity := "0(n) due to the extra space for the temporary arrays used during merging" }
  | "Quick Sort" => some
      { description := "Quick Sort picks a pivot element, partitions the array around the pivot, and recursively sorts the partitions. It works efficiently in average cases but can degrade in performance in certain cases."
        timeComplexity := "0(n log n) (average), 0(n^2) (worst case)"
        spaceComplexity := "0(log n) for the recursion stack (best case), 0(n) (worst case)" }
  | _ => none

/-- The metadata area of the rendered tree: either the
description/time-complexity/space-complexity block for a known algorithm,
or the fallback prompt paragraph. -/
inductive InfoBlock where
  | metadata (info : AlgorithmInfo)
  | fallback (msg : String)
deriving DecidableEq, Repr

/-- The observable shape of one render of the component.  `targetLine` is
`some t` when the conditional `(algorithm === "Linear Search" || algorithm
=== "Binary Search") && <p>Target: {target}</p>` renders the paragraph
(carrying the optional `target` prop value `t`, which may itself be absent),
and `none` when the paragraph is not rendered at all. -/
structure RenderedOutput where
  heading : String
  infoBlock : InfoBlock
  targetLine : Option (Option Int)
  stepIndex : Nat
  totalSteps : Nat
  playLabel : String
  nextDisabled : Bool
  prevDisabled : Bool
deriving DecidableEq, Repr

/-- One render of the component body, as a function of the props
`algorithm`, `steps.length`, `target` and the current playback state.
Follows the returned JSX: heading, `selectedAlgo` ternary, target
conditional, step rendering indices, and the four buttons with the
`disabled` attributes `currentStepIndex === steps.length - 1` (JavaScript
number equality, embedded over `Int`) and `currentStepIndex === 0`. -/
def render (algorithm : String) (len : Nat) (target : Option Int)
    (s : PlaybackState) : RenderedOutput :=
  { heading := "Visualization for " ++ algorithm
    infoBlock :=
      match algorithmInfo algorithm with
      | some info => InfoBlock.metadata info
      | none => InfoBlock.fallback "Select an algorithm to visualize."
    targetLine :=
      if algorithm = "Linear Search" ∨ algorithm = "Binary Search" then
        some target
      else
        none
    stepIndex := s.currentStepIndex
    totalSteps := len
    playLabel := if s.isPlaying then "Pause" else "Play"
    nextDisabled := decide ((s.currentStepIndex : Int) = (len : Int) - 1)
    prevDisabled := decide (s.currentStepIndex = 0) }

/-- The access `steps[currentStepIndex]` passed to `renderStep`, embedded
as a fallible list index. -/
def currentStepOf {α : Type} (steps : List α) (s : PlaybackState) : Option α :=
  steps.get? s.currentStepIndex

/-- The cursor invariant stated in the spec for a sequence of length
`len > 0`: `0 ≤ cursor ≤ len - 1` (the lower bound is inherent to `Nat`). -/
def CursorInv (len : Nat) (s : PlaybackState) : Prop :=
  s.currentStepIndex ≤ len - 1

instance (len : Nat) (s : PlaybackState) : Decidable (CursorInv len s) := by
  unfold CursorInv; infer_instance

/-- C3: `nextStep` behaves exactly as specified: when the cursor is below
`len - 1` it increments the cursor by exactly 1 and leaves `isPlaying`
unchanged; at cursor `len - 1` with `isPlaying` true it sets `isPlaying`
to false and leaves the cursor unchanged; at cursor `len - 1` with
`isPlaying` false it leaves the state unchanged. -/
theorem nextStep_spec (len : Nat) (s : PlaybackState) :
    (s.currentStepIndex < len - 1 →
      nextStep len s = { s with currentStepIndex := s.currentStepIndex + 1 }) ∧
    (s.currentStepIndex = len - 1 → s.isPlaying = true →
      nextStep len s = { s with isPlaying := false }) ∧
    (s.currentStepIndex = len - 1 → s.isPlaying = false →
      nextStep len s = s) := by
  refine ⟨fun h => ?_, fun h hp => ?_, fun h hp => ?_⟩
  · simp only [nextStep]
    rw [if_pos (by omega : (s.currentStepIndex : Int) < (len : Int) - 1)]
  · simp only [nextStep]
    rw [if_neg (by omega : ¬ (s.currentStepIndex : Int) < (len : Int) - 1)]
  · simp only [nextStep]
    rw [if_neg (by omega : ¬ (s.currentStepIndex : Int) < (len : Int) - 1)]
    cases s
    simp_all

/-- Witness for C3: the three cases of `nextStep_spec` evaluated on a
sequence of length 5. -/
theorem nextStep_spec_witness :
    nextStep 5 { currentStepIndex := 2, isPlaying := true } =
      { currentStepIndex := 3, isPlaying := true } ∧
    nextStep 5 { currentStepIndex := 4, isPlaying := true } =
      { currentStepIndex := 4, isPlaying := false } ∧
    nextStep 5 { currentStepIndex := 4, isPlaying := false } =
      { currentStepIndex := 4, isPlaying := false } :=
  ⟨(nextStep_spec 5 _).1 (by decide),
   (nextStep_spec 5 _).2.1 (by decide) rfl,
   (nextStep_spec 5 _).2.2 (by decide) rfl⟩

/-- C6: `prevStep` behaves exactly as specified: at any cursor above 0 it
decreases the cursor by exactly 1 and leaves `isPlaying` unchanged; at
cursor 0 it leaves the state unchanged. -/
theorem prevStep_spec (s : PlaybackState) :
    (s.currentStepIndex > 0 →
      prevStep s = { s with currentStepIndex := s.currentStepIndex - 1 }) ∧
    (s.currentStepIndex = 0 → prevStep s = s) := by
  refine ⟨fun h => ?_, fun h => ?_⟩
  · simp only [prevStep]
    rw [if_pos h]
  · simp only [prevStep]
    rw [if_neg (by omega : ¬ s.currentStepIndex > 0)]

/-- Witness for C6: both cases of `prevStep_spec` evaluated concretely. -/
theorem prevStep_spec_witness :
    prevStep { currentStepIndex := 3, isPlaying := true } =
      { currentStepIndex := 2, isPlaying := true } ∧
    prevStep { currentStepIndex := 0, isPlaying := true } =
      { currentStepIndex := 0, isPlaying := true } :=
  ⟨(prevStep_spec _).1 (by decide), (prevStep_spec _).2 rfl⟩

/-- C7: `restart` always yields cursor 0 and `isPlaying` false, for every
prior state. -/
theorem restart_spec (s : PlaybackState) :
    (restart s).currentStepIndex = 0 ∧ (restart s).isPlaying = false :=
  ⟨rfl, rfl⟩

/-- C10: away from cursor 0, `nextStep` is a left inverse of `prevStep`:
for `1 ≤ cursor ≤ len - 1` with `len > 0`, `prevStep` then `nextStep`
restores the original state exactly. -/
theorem next_prev_inverse (len : Nat) (s : PlaybackState) (hlen : 0 < len)
    (h1 : 1 ≤ s.currentStepIndex) (h2 : s.currentStepIndex ≤ len - 1) :
    nextStep len (prevStep s) = s := by
  obtain ⟨c, p⟩ := s
  simp only at h1 h2
  simp only [prevStep, nextStep]
  rw [if_pos (by omega : c > 0)]
  simp only
  rw [if_pos (by omega : ((c - 1 : Nat) : Int) < (len : Int) - 1)]
  simp only [PlaybackState.mk.injEq]
  exact ⟨by omega, trivial⟩

/-- Witness for C10: `next_prev_inverse` at length 5, cursor 3. -/
theorem next_prev_inverse_witness :
    nextStep 5 (prevStep { currentStepIndex := 3, isPlaying := true }) =
      { currentStepIndex := 3, isPlaying := true } :=
  next_prev_inverse 5 _ (by decide) (by decide) (by decide)

/-- C2: for a nonempty step sequence, the cursor invariant
`0 ≤ cursor ≤ length - 1` is preserved by `nextStep`, `prevStep`,
`restart` and `togglePlay`, and under it the access
`steps[currentStepIndex]` is always in bounds (the `none` branch of the
`Option`-returning index is unreachable); none of the operations can
fail. -/
theorem playback_invariant {α : Type} (steps : List α)
    (hlen : 0 < steps.length) (s : PlaybackState)
    (h : CursorInv steps.length s) :
    CursorInv steps.length (nextStep steps.length s) ∧
    CursorInv steps.length (prevStep s) ∧
    CursorInv steps.length (restart s) ∧
    CursorInv steps.length (togglePlay s) ∧
    (currentStepOf steps s).isSome = true := by
  obtain ⟨c, p⟩ := s
  simp only [CursorInv] at h
  refine ⟨?_, ?_, ?_, ?_, ?_⟩
  · simp only [CursorInv, nextStep]
    split
    · simp only
      omega
    · simp only
      omega
  · simp only [CursorInv, prevStep]
    split
    · simp only
      omega
    · simp only
      omega
  · simp only [CursorInv, restart]
    omega
  · simp only [CursorInv, togglePlay]
    omega
  · simp only [currentStepOf]
    rw [List.get?_eq_getElem?]
    simp [List.getElem?_eq_getElem (by omega : c < steps.length)]

/-- Witness for C2: `playback_invariant` on the sequence `[10, 20, 30]`
at cursor 1 while playing. -/
theorem playback_invariant_witness :
    CursorInv 3 (nextStep 3 { currentStepIndex := 1, isPlaying := true }) ∧
    CursorInv 3 (prevStep { currentStepIndex := 1, isPlaying := true }) ∧
    CursorInv 3 (restart { currentStepIndex := 1, isPlaying := true }) ∧
    CursorInv 3 (togglePlay { currentStepIndex := 1, isPlaying := true }) ∧
    (currentStepOf [10, 20, 30]
      { currentStepIndex := 1, isPlaying := true }).isSome = true :=
  playback_invariant ([10, 20, 30] : List Nat) (by decide) _ (by decide)

/-- C1 counterexample: on a step sequence of length 5, starting from the
initial state and calling `togglePlay`, letting 4 timer ticks elapse
yields cursor 4 but `isPlaying` is still true, not false as the claim
states: the 4th tick only moves the cursor to the last index, and the
interval is rearmed, so a 5th tick does occur and changes the state. -/
theorem autoplay_four_ticks_counterexample :
    (ticks 5 4 (togglePlay initialState)).currentStepIndex = 4 ∧
    (ticks 5 4 (togglePlay initialState)).isPlaying ≠ false := by
  decide

/-- C1 amended: reaching the last index via automatic advance forces
`isPlaying` to false one tick later, not on the arriving tick: whenever
the cursor is at the last index with `isPlaying` true, the next tick
sets `isPlaying` to false, leaves the cursor unchanged, and every tick
after that is a no-op; in the length-5 scenario, 5 ticks after
`togglePlay` yield cursor 4 with `isPlaying` false, and a 6th tick
leaves that state unchanged. -/
theorem autoplay_stop_amended (len : Nat) (s : PlaybackState)
    (hc : (s.currentStepIndex : Int) = (len : Int) - 1)
    (hp : s.isPlaying = true) :
    (tick len s).isPlaying = false ∧
    (tick len s).currentStepIndex = s.currentStepIndex ∧
    tick len (tick len s) = tick len s ∧
    ticks 5 5 (togglePlay initialState) =
      { currentStepIndex := 4, isPlaying := false } ∧
    ticks 5 6 (togglePlay initialState) =
      { currentStepIndex := 4, isPlaying := false } := by
  have h1 : tick len s = { s with isPlaying := false } := by
    simp only [tick, hp, if_true, nextStep]
    rw [if_neg (by omega : ¬ (s.currentStepIndex : Int) < (len : Int) - 1)]
  have h2 : ∀ t : PlaybackState, t.isPlaying = false → tick len t = t := by
    intro t ht
    simp [tick, ht]
  refine ⟨by rw [h1], by rw [h1], ?_, by decide, by decide⟩
  rw [h1, h2 _ rfl]

/-- Witness for C1 amended: `autoplay_stop_amended` at length 5 and state
cursor 4, playing. -/
theorem autoplay_stop_amended_witness :
    (tick 5 { currentStepIndex := 4, isPlaying := true }).isPlaying = false ∧
    (tick 5 { currentStepIndex := 4, isPlaying := true }).currentStepIndex =
      (4 : Nat) ∧
    tick 5 (tick 5 { currentStepIndex := 4, isPlaying := true }) =
      tick 5 { currentStepIndex := 4, isPlaying := true } ∧
    ticks 5 5 (togglePlay initialState) =
      { currentStepIndex := 4, isPlaying := false } ∧
    ticks 5 6 (togglePlay initialState) =
      { currentStepIndex := 4, isPlaying := false } :=
  autoplay_stop_amended 5 { currentStepIndex := 4, isPlaying := true }
    (by decide) rfl

/-- C4: for every algorithm name absent from the static table, the render
shows the fallback prompt and no metadata block, and the lookup never
faults (it totally returns an `Option`); for every name present, the
metadata block with that entry's fixed strings is rendered instead of
the fallback. -/
theorem metadata_lookup_spec (algorithm : String) (len : Nat)
    (target : Option Int) (s : PlaybackState) :
    (algorithmInfo algorithm = none →
      (render algorithm len target s).infoBlock =
        InfoBlock.fallback "Select an algorithm to visualize.") ∧
    (∀ info, algorithmInfo algorithm = some info →
      (render algorithm len target s).infoBlock = InfoBlock.metadata info) := by
  refine ⟨fun h => ?_, fun info h => ?_⟩ <;> simp only [render] <;> rw [h]

/-- Witness for C4: the fallback for the unknown name from the scenario,
and the metadata block for the known name of the Bubble Sort entry. -/
theorem metadata_lookup_spec_witness :
    (render "Unknown Algo" 3 none initialState).infoBlock =
      InfoBlock.fallback "Select an algorithm to visualize." ∧
    (render "Bubble Sort" 3 none initialState).infoBlock =
      InfoBlock.metadata
        { description := "Bubble Sort compares adjacent elements in an array and swaps them if they are in the wrong order. It repeats this process until the array is sorted."
          timeComplexity := "0(n^2)"
          spaceComplexity := "0(1)" } :=
  ⟨(metadata_lookup_spec "Unknown Algo" 3 none initialState).1 rfl,
   (metadata_lookup_spec "Bubble Sort" 3 none initialState).2 _ rfl⟩

/-- C5: the target line appears in the rendered output if and only if the
algorithm name is exactly "Linear Search" or "Binary Search", for every
`target` prop value (supplied or not). -/
theorem target_display_iff (algorithm : String) (len : Nat)
    (target : Option Int) (s : PlaybackState) :
    (render algorithm len target s).targetLine ≠ none ↔
      (algorithm = "Linear Search" ∨ algorithm = "Binary Search") := by
  simp only [render]
  by_cases h : algorithm = "Linear Search" ∨ algorithm = "Binary Search"
  · rw [if_pos h]
    simp [h]
  · rw [if_neg h]
    simp [h]

/-- Witness for C5: `target_display_iff` at the scenario input
"Bubble Sort" with no target supplied. -/
theorem target_display_iff_witness :
    ((render "Bubble Sort" 3 none initialState).targetLine ≠ none ↔
      ("Bubble Sort" = "Linear Search" ∨ "Bubble Sort" = "Binary Search")) :=
  target_display_iff "Bubble Sort" 3 none initialState

/-- C8: in every rendered output the Next control is disabled exactly when
the cursor equals `length - 1` (JavaScript number equality, i.e. over
`Int`) and the Previous control is disabled exactly when the cursor is 0;
for a nonempty sequence the Next condition is equivalently the `Nat`
equation `cursor = length - 1`. -/
theorem controls_disabled_spec (algorithm : String) (len : Nat)
    (target : Option Int) (s : PlaybackState) :
    ((render algorithm len target s).nextDisabled = true ↔
      (s.currentStepIndex : Int) = (len : Int) - 1) ∧
    ((render algorithm len target s).prevDisabled = true ↔
      s.currentStepIndex = 0) ∧
    (0 < len →
      ((render algorithm len target s).nextDisabled = true ↔
        s.currentStepIndex = len - 1)) := by
  simp only [render]
  refine ⟨by simp, by simp, fun hlen => ?_⟩
  simp only [decide_eq_true_eq]
  omega

/-- Witness for C8: `controls_disabled_spec` at length 5 and cursor 4,
where the Next control is disabled. -/
theorem controls_disabled_spec_witness :
    (render "Linear Search" 5 (some 3)
      { currentStepIndex := 4, isPlaying := false }).nextDisabled = true ↔
      (4 : Nat) = 5 - 1 :=
  (controls_disabled_spec "Linear Search" 5 (some 3)
    { currentStepIndex := 4, isPlaying := false }).2.2 (by decide)

/-- C9: when the algorithm name is "Linear Search" or "Binary Search" the
target line is rendered even when no target value was supplied: the
conditional checks only the algorithm name, so the line appears carrying
the absent value rather than being suppressed. -/
theorem target_line_rendered_without_target (algorithm : String)
    (len : Nat) (s : PlaybackState)
    (h : algorithm = "Linear Search" ∨ algorithm = "Binary Search") :
    (render algorithm len none s).targetLine = some none := by
  simp only [render]
  rw [if_pos h]

/-- Witness for C9: `target_line_rendered_without_target` at
"Linear Search" with no target supplied. -/
theorem target_line_rendered_without_target_witness :
    (render "Linear Search" 3 none initialState).targetLine = some none :=
  target_line_rendered_without_target "Linear Search" 3 initialState
    (Or.inl rfl)

end AlgoVisualizer
